import Mathlib

/-!
Verification of the headline ingestion-and-caching pipeline of the
web3newBot repository.  The Python sources are shallowly embedded as
executable Lean definitions: strings become `String`/`List Char`,
timestamps become `Nat`, the on-disk joblib file becomes an
`Option`-typed store, and the failure points of the browser/network
stages become explicit `Except` parameters.  Each definition carries a
comment naming the Python function (and file) it embeds.
-/

/- ===================== Classifier (crypto_data_service.py 28-41, main.py 55-66) ===================== -/

/-- The fixed bullish keyword inventory of `classify_sentiment`. -/
def bullishKeywords : List String :=
  ["surge", "rally", "soar", "gain", "bull", "increase", "rise", "positive",
   "record", "high", "jump", "growth", "breakout", "buy", "invest", "pump"]

/-- The fixed bearish keyword inventory of `classify_sentiment`. -/
def bearishKeywords : List String :=
  ["drop", "fall", "crash", "bear", "decline", "loss", "down", "negative",
   "sell", "dump", "fear", "panic", "collapse", "recession", "dip"]

/-- Python substring containment `needle in hay` on character lists. -/
def substrOf (needle hay : List Char) : Bool :=
  hay.tails.any (fun t => needle.isPrefixOf t)

/-- Python `str.lower()` (ASCII case folding, which covers every keyword). -/
def lowerChars (s : List Char) : List Char :=
  s.map Char.toLower

/-- `bull_score = sum(w in text for w in bullish)` of `classify_sentiment`. -/
def bullScore (headline : String) : Nat :=
  bullishKeywords.countP (fun w => substrOf w.data (lowerChars headline.data))

/-- `bear_score = sum(w in text for w in bearish)` of `classify_sentiment`. -/
def bearScore (headline : String) : Nat :=
  bearishKeywords.countP (fun w => substrOf w.data (lowerChars headline.data))

/-- `classify_sentiment` (crypto_data_service.py lines 28-41; the copy in
main.py lines 55-66 is textually identical): lower-case the headline, count
the contained bullish and bearish keywords, compare. -/
def classify_sentiment (headline : String) : String :=
  if bearScore headline < bullScore headline then "🟢 Bullish"
  else if bullScore headline < bearScore headline then "🔴 Bearish"
  else "⚪ Neutral"

/- ===================== Summarizer (main.py 69-79) ===================== -/

/-- Lookbehind class `[.!?]` of the sentence-splitting regex, applied to the
previous character when one exists. -/
def isTerm : Option Char → Bool
  | some c => c == '.' || c == '!' || c == '?'
  | none => false

/-- Worker for `re.split(r'(?<=[.!?]) +', text)`.  The first argument is
true while the scanner is inside a delimiter run of spaces, the second is
the previous character (for the lookbehind), the third accumulates the
current piece in reverse. -/
def splitSentencesGo : Bool → Option Char → List Char → List Char → List (List Char)
  | _, _, acc, [] => [acc.reverse]
  | true, _, acc, c :: cs =>
      if c == ' ' then splitSentencesGo true (some ' ') acc cs
      else splitSentencesGo false (some c) (c :: acc) cs
  | false, prev, acc, c :: cs =>
      if c == ' ' && isTerm prev then
        acc.reverse :: splitSentencesGo true (some ' ') [] cs
      else splitSentencesGo false (some c) (c :: acc) cs

/-- `re.split(r'(?<=[.!?]) +', text)` of `summarize_text`. -/
def splitSentences (cs : List Char) : List (List Char) :=
  splitSentencesGo false none [] cs

/-- Python regex word character `\w` (ASCII fragment). -/
def isWordChar (c : Char) : Bool :=
  c.isAlphanum || c == '_'

/-- Worker for `re.findall(r'\w+', s)`: maximal runs of word characters. -/
def findWordsGo : List Char → List Char → List (List Char)
  | acc, [] => if acc.isEmpty then [] else [acc.reverse]
  | acc, c :: cs =>
      if isWordChar c then findWordsGo (c :: acc) cs
      else if acc.isEmpty then findWordsGo [] cs
      else acc.reverse :: findWordsGo [] cs

/-- `re.findall(r'\w+', s)` of `summarize_text`. -/
def findWords (cs : List Char) : List (List Char) :=
  findWordsGo [] cs

/-- The sort key of `summarize_text`: the sum, over the words of sentence
`s`, of the frequency of the lowered word among the words of the lowered
whole text (`freq = Counter(words)`; `freq[w.lower()]` is 0 for absent
keys, which `List.count` reproduces). -/
def sentenceScore (text : String) (s : List Char) : Nat :=
  ((findWords s).map (fun w => (findWords (lowerChars text.data)).count (lowerChars w))).sum

/-- Stable descending insertion used to model Python `sorted(_, key,
reverse=True)`: the new element goes after every already placed element of
greater-or-equal key, so elements of equal key keep their original order. -/
def insDesc (key : α → Nat) (x : α) : List α → List α
  | [] => [x]
  | y :: ys => if key x ≤ key y then y :: insDesc key x ys else x :: y :: ys

/-- Fold of `insDesc` over the input in document order. -/
def sortDescAux (key : α → Nat) : List α → List α → List α
  | acc, [] => acc
  | acc, x :: xs => sortDescAux key (insDesc key x acc) xs

/-- Python `sorted(l, key=key, reverse=True)`: key-descending and stable. -/
def sortDesc (key : α → Nat) (l : List α) : List α :=
  sortDescAux key [] l

/-- Python `" ".join(pieces)`. -/
def joinSpace : List (List Char) → List Char
  | [] => []
  | [s] => s
  | s :: rest => s ++ ' ' :: joinSpace rest

/-- Python `str.strip()`: drop whitespace from both ends. -/
def pyStrip (cs : List Char) : List Char :=
  ((cs.dropWhile Char.isWhitespace).reverse.dropWhile Char.isWhitespace).reverse

/-- `str.strip()` on `String`. -/
def pyStripS (s : String) : String :=
  String.mk (pyStrip s.data)

/-- `summarize_text` (main.py lines 69-79): split into sentences; if at most
`maxS` sentences, return the text unchanged; otherwise rank the sentences by
`sentenceScore` descending (stable), keep the first `maxS`, join with single
spaces and strip. -/
def summarize_text (text : String) (maxS : Nat := 2) : String :=
  if (splitSentences text.data).length ≤ maxS then text
  else String.mk (pyStrip (joinSpace ((sortDesc (sentenceScore text) (splitSentences text.data)).take maxS)))

/- ===================== Cache loaders (streamlit_app.py 107-123, crypto_data_service.py 150-156, main.py 44-52) ===================== -/

/-- State of the on-disk joblib file for one key: absent, present but
unreadable by `joblib.load`, or present with readable content `d`. -/
inductive FileState (α : Type u)
  | absent
  | corrupt
  | good (d : α)
deriving DecidableEq

/-- `load_coindesk_news` (streamlit_app.py lines 107-114): missing file
gives `[]`, a `joblib.load` exception is caught and gives `[]`, otherwise
the stored list is returned. -/
def load_coindesk_news (fs : FileState (List α)) : List α :=
  match fs with
  | .good l => l
  | _ => []

/-- `load_saved_data` (crypto_data_service.py lines 150-156): missing file
gives `None`; a readable file gives its content; a corrupt file makes
`joblib.load` raise, and nothing catches it (`Except.error`). -/
def load_saved_data (fs : FileState α) : Except String (Option α) :=
  match fs with
  | .absent => .ok none
  | .corrupt => .error "joblib.load raised"
  | .good d => .ok (some d)

/-- `load_joblib` (main.py lines 44-52): missing file raises
`HTTPException(404)`; a `joblib.load` failure raises `HTTPException(500)`;
otherwise the content is returned. -/
def load_joblib (fs : FileState α) : Except (Nat × String) α :=
  match fs with
  | .absent => .error (404, "File not found")
  | .corrupt => .error (500, "joblib.load raised")
  | .good d => .ok d

/-- Boolean success test for `Except`. -/
def isOkB : Except ε α → Bool
  | .ok _ => true
  | .error _ => false

/- ===================== SimpleCache (telegram_bot.py 29-48) ===================== -/

/-- `SimpleCache.get` (telegram_bot.py lines 35-42) for one key.  The entry
is `some (value, storedAt)` or `none`; times are naturals.  The code serves
the value when `now - timestamp < ttl` and otherwise deletes the entry and
returns `None`.  Result: (returned value, entry after the call). -/
def cacheGet (entry : Option (α × Nat)) (now ttl : Nat) : Option α × Option (α × Nat) :=
  match entry with
  | none => (none, none)
  | some (d, ts) => if now - ts < ttl then (some d, some (d, ts)) else (none, none)

/- ===================== Articles, elements and snapshots ===================== -/

/-- A produced article record (main.py / crypto_data_service.py shape).
The crypto_data_service version writes no summary key, modelled as
`summary = none`; main.py writes `some`. -/
structure Article where
  title : String
  link : String
  sentiment : String
  summary : Option String
deriving DecidableEq

/-- The payload dumped to `coindesk_news.joblib` by main.py and
crypto_data_service.py: capture timestamp, source name, article list. -/
structure Snapshot where
  timestamp : Nat
  source : String
  articles : List Article
deriving DecidableEq

/-- A visited `h3` headline element: its raw inner text and the `href` of
the nearest enclosing anchor.  `href = none` models both a missing parent
anchor and a missing or empty (Python-falsy) `href` attribute. -/
structure Elem where
  text : String
  href : Option String
deriving DecidableEq

/-- The streamlit article record (title and link only). -/
structure StArticle where
  title : String
  link : String
deriving DecidableEq

/-- The failure points of the acquisition stages. -/
inductive Err
  | navError
  | waitTimeout
  | parseError
  | httpError
deriving DecidableEq

/-- The CoinDesk base url used by main.py and crypto_data_service.py. -/
def coindeskUrl : String := "https://www.coindesk.com/"

/-- Link resolution of main.py line 122 / crypto_data_service.py line 122:
`full_link = url + href if href and href.startswith("/") else href`. -/
def resolveLink (href : Option String) : Option String :=
  match href with
  | none => none
  | some h => if h.startsWith "/" then some (coindeskUrl ++ h) else some h

/-- One loop body of `fetch_and_save_coindesk_news` in main.py (lines
118-132): strip the title, resolve the link with the "No link found"
sentinel, classify, summarize. -/
def mkArticleMain (e : Elem) : Article :=
  { title := pyStripS e.text
  , link := (resolveLink e.href).getD "No link found"
  , sentiment := classify_sentiment (pyStripS e.text)
  , summary := some (summarize_text (pyStripS e.text)) }

/-- One loop body of `fetch_and_save_coindesk_news` in
crypto_data_service.py (lines 118-128): same as main.py but without a
summary field. -/
def mkArticleCds (e : Elem) : Article :=
  { title := pyStripS e.text
  , link := (resolveLink e.href).getD "No link found"
  , sentiment := classify_sentiment (pyStripS e.text)
  , summary := none }

/-- The extraction loop of `fetch_and_cache_coindesk_news`
(streamlit_app.py lines 46-53): elements whose `href` is falsy are skipped
entirely (`if href:` guards the append); present links are absolutized
against `https://www.coindesk.com` unless they already start with
`http`. -/
def streamlitExtract (elems : List Elem) (limit : Nat) : List StArticle :=
  (elems.take limit).filterMap (fun e =>
    match e.href with
    | none => none
    | some h =>
        some { title := pyStripS e.text
             , link := if h.startsWith "http" then h else "https://www.coindesk.com" ++ h })

/-- An `app.py` article candidate: the optional `h3.nws-article__headline`
tag text and the optional anchor href inside one `div.nws-article`. -/
structure AppElem where
  titleTag : Option String
  linkTag : Option String
deriving DecidableEq

/-- The extraction loop of `scrape_news` (app.py lines 33-42): a record is
appended only when both the title tag and the link tag are present. -/
def appExtract (elems : List AppElem) : List StArticle :=
  elems.filterMap (fun e =>
    match e.titleTag, e.linkTag with
    | some t, some l => some { title := pyStripS t, link := l }
    | _, _ => none)

/- ===================== Refresh pipelines ===================== -/

/-- `fetch_and_save_coindesk_news` of main.py (lines 106-143).  The
`acquire` parameter is the combined outcome of `requests.get`,
`raise_for_status` and the soup parse: on success it yields the visited
`h3` elements in document order.  The whole body is inside one
`try/except` that swallows the exception, so on failure nothing is dumped
and the store is returned unchanged; on success the new snapshot
overwrites the store. -/
def fetch_and_save_main (acquire : Except Err (List Elem)) (limit now : Nat)
    (store : Option Snapshot) : Option Snapshot :=
  match acquire with
  | .error _ => store
  | .ok elems =>
      some { timestamp := now, source := "CoinDesk"
           , articles := (elems.take limit).map mkArticleMain }

/-- Outcome of the crypto_data_service refresh: returned value, store
after the call, and whether `driver.quit()` ran. -/
structure CdsResult where
  result : Option Snapshot
  store : Option Snapshot
  quitCalled : Bool
deriving DecidableEq

/-- `fetch_and_save_coindesk_news` of crypto_data_service.py (lines
98-144).  `nav` is `driver.get`, `waitStep` the bounded `WebDriverWait`,
`parseStep` the page-source parse; `elems` are the `h3` elements found on
success.  The body is wrapped in `try/except/finally`: any stage failure
is caught (`return None`) without dumping, and `driver.quit()` runs in the
`finally` on every path. -/
def fetch_and_save_cds (nav waitStep parseStep : Except Err Unit) (elems : List Elem)
    (limit now : Nat) (store : Option Snapshot) : CdsResult :=
  match nav with
  | .error _ => { result := none, store := store, quitCalled := true }
  | .ok _ =>
    match waitStep with
    | .error _ => { result := none, store := store, quitCalled := true }
    | .ok _ =>
      match parseStep with
      | .error _ => { result := none, store := store, quitCalled := true }
      | .ok _ =>
          let snap : Snapshot :=
            { timestamp := now, source := "CoinDesk"
            , articles := (elems.take limit).map mkArticleCds }
          { result := some snap, store := some snap, quitCalled := true }

/-- Outcome of the streamlit fetch: returned articles (none when an
exception propagates), store after the call, whether `driver.quit()` ran,
and whether the call ended by raising. -/
structure StResult where
  articles : Option (List StArticle)
  store : Option (List StArticle)
  quitCalled : Bool
  raised : Bool
deriving DecidableEq

/-- `fetch_and_cache_coindesk_news` of streamlit_app.py (lines 28-56).
`driver.get` (line 37) runs before the `try`, so a navigation failure
propagates with `driver.quit()` never executed.  The wait and the parse
are inside `try/finally`, so their failures propagate after the quit.  On
success the extraction loop runs after the `finally` and the article list
is dumped. -/
def fetch_and_cache_streamlit (nav waitStep parseStep : Except Err Unit)
    (elems : List Elem) (limit : Nat) (store : Option (List StArticle)) : StResult :=
  match nav with
  | .error _ => { articles := none, store := store, quitCalled := false, raised := true }
  | .ok _ =>
    match waitStep with
    | .error _ => { articles := none, store := store, quitCalled := true, raised := true }
    | .ok _ =>
      match parseStep with
      | .error _ => { articles := none, store := store, quitCalled := true, raised := true }
      | .ok _ =>
          let arts := streamlitExtract elems limit
          { articles := some arts, store := some arts, quitCalled := true, raised := false }

/-- Outcome of app.py `scrape_news`. -/
structure AppResult where
  articles : Option (List StArticle)
  quitCalled : Bool
  raised : Bool
deriving DecidableEq

/-- `scrape_news` of app.py (lines 18-42).  There is no `try` at all:
`driver.get`, the sleep, the page-source parse and only then
`driver.quit()` run in straight-line order, so a navigation or parse
failure propagates with the browser session still open. -/
def scrape_news (nav parseStep : Except Err Unit) (elems : List AppElem) : AppResult :=
  match nav with
  | .error _ => { articles := none, quitCalled := false, raised := true }
  | .ok _ =>
    match parseStep with
    | .error _ => { articles := none, quitCalled := false, raised := true }
    | .ok _ => { articles := some (appExtract elems), quitCalled := true, raised := false }

/- ===================== Read paths ===================== -/

/-- Summary backfill of `get_coindesk_news` (main.py lines 213-216): an
article whose summary key is missing or falsy (modelled `none` or
`some ""`) gets `summarize_text(title)`. -/
def backfillArticle (a : Article) : Article :=
  match a.summary with
  | none => { a with summary := some (summarize_text a.title) }
  | some s => if s = "" then { a with summary := some (summarize_text a.title) } else a

/-- Backfill applied to every article of a loaded snapshot. -/
def backfill (s : Snapshot) : Snapshot :=
  { s with articles := s.articles.map backfillArticle }

/-- Result of the `/coindesk` handler: the returned snapshot or the
uncaught `joblib.load` failure on a missing file. -/
inductive LoadOutcome
  | ok (s : Snapshot)
  | fileNotFoundError
deriving DecidableEq

/-- Full result of `get_coindesk_news`: outcome, on-disk store after the
call, and whether the fetch pipeline was invoked. -/
structure ApiNewsResult where
  outcome : LoadOutcome
  store : Option Snapshot
  fetchInvoked : Bool
deriving DecidableEq

/-- `get_coindesk_news` (main.py lines 204-218): if the file exists it is
loaded directly (no refresh) and returned with summary backfill; if it
does not exist, `fetch_and_save_coindesk_news` runs first (swallowing its
own errors) and then the file is loaded unconditionally, so a failed fetch
leaves the load to raise `FileNotFoundError`. -/
def get_coindesk_news (store : Option Snapshot) (acquire : Except Err (List Elem))
    (limit now : Nat) : ApiNewsResult :=
  match store with
  | some s => { outcome := .ok (backfill s), store := some s, fetchInvoked := false }
  | none =>
    match fetch_and_save_main acquire limit now none with
    | some snap => { outcome := .ok (backfill snap), store := some snap, fetchInvoked := true }
    | none => { outcome := .fileNotFoundError, store := none, fetchInvoked := true }

/-- Outcome of the bot `/news` handler (telegram_bot.py lines 109-126). -/
inductive NewsOutcome
  | servedFromCache (s : Snapshot)
  | servedFresh (s : Snapshot)
  | fetchFailedMessage
deriving DecidableEq

/-- Full result of the bot `/news` handler: reply outcome, cache entry
after the call, and whether the backend fetch was attempted. -/
structure BotNewsResult where
  outcome : NewsOutcome
  entry : Option (Snapshot × Nat)
  fetchInvoked : Bool
deriving DecidableEq

/-- The bot `/news` handler (telegram_bot.py lines 109-126): serve a cache
hit directly; on a miss call `fetch_with_retry` (`fetchResult = none`
models its `None` on failure), reply with a failure message when it fails,
otherwise cache and serve the fresh data. -/
def botNews (entry : Option (Snapshot × Nat)) (now ttl : Nat)
    (fetchResult : Option Snapshot) : BotNewsResult :=
  match cacheGet entry now ttl with
  | (some d, e2) => { outcome := .servedFromCache d, entry := e2, fetchInvoked := false }
  | (none, e2) =>
    match fetchResult with
    | none => { outcome := .fetchFailedMessage, entry := e2, fetchInvoked := true }
    | some d => { outcome := .servedFresh d, entry := some (d, now), fetchInvoked := true }

/- ===================== Helper lemmas ===================== -/

theorem insDesc_length (key : α → Nat) (x : α) (l : List α) :
    (insDesc key x l).length = l.length + 1 := by
  induction l with
  | nil => rfl
  | cons y ys ih =>
      by_cases h : key x ≤ key y <;> simp [insDesc, h, ih]

theorem mem_insDesc {key : α → Nat} {x a : α} {l : List α} :
    a ∈ insDesc key x l ↔ a = x ∨ a ∈ l := by
  induction l with
  | nil => simp [insDesc]
  | cons y ys ih =>
      by_cases h : key x ≤ key y
      · simp only [insDesc, if_pos h, List.mem_cons, ih]
        try tauto
      · simp only [insDesc, if_neg h, List.mem_cons]
        try tauto

theorem insDesc_pairwise (key : α → Nat) (x : α) {l : List α}
    (h : l.Pairwise (fun a b => key b ≤ key a)) :
    (insDesc key x l).Pairwise (fun a b => key b ≤ key a) := by
  induction l with
  | nil => simp [insDesc]
  | cons y ys ih =>
      rcases List.pairwise_cons.mp h with ⟨hy, hys⟩
      by_cases hxy : key x ≤ key y
      · simp only [insDesc, if_pos hxy]
        refine List.Pairwise.cons ?_ (ih hys)
        intro b hb
        rcases mem_insDesc.mp hb with rfl | hb
        · exact hxy
        · exact hy b hb
      · simp only [insDesc, if_neg hxy]
        refine List.Pairwise.cons ?_ h
        intro b hb
        rcases List.mem_cons.mp hb with rfl | hb
        · exact Nat.le_of_lt (Nat.lt_of_not_le hxy)
        · exact Nat.le_trans (hy b hb) (Nat.le_of_lt (Nat.lt_of_not_le hxy))

theorem sortDescAux_length (key : α → Nat) :
    ∀ (l acc : List α), (sortDescAux key acc l).length = acc.length + l.length := by
  intro l
  induction l with
  | nil => intro acc; simp [sortDescAux]
  | cons x xs ih =>
      intro acc
      simp only [sortDescAux, ih, insDesc_length, List.length_cons]
      omega

theorem mem_sortDescAux (key : α → Nat) :
    ∀ (l acc : List α) (a : α), a ∈ sortDescAux key acc l → a ∈ acc ∨ a ∈ l := by
  intro l
  induction l with
  | nil => intro acc a h; exact Or.inl h
  | cons x xs ih =>
      intro acc a h
      rcases ih (insDesc key x acc) a h with h2 | h2
      · rcases mem_insDesc.mp h2 with rfl | h3
        · exact Or.inr (List.mem_cons_self a xs)
        · exact Or.inl h3
      · exact Or.inr (List.mem_cons_of_mem x h2)

theorem sortDescAux_pairwise (key : α → Nat) :
    ∀ (l acc : List α), acc.Pairwise (fun a b => key b ≤ key a) →
      (sortDescAux key acc l).Pairwise (fun a b => key b ≤ key a) := by
  intro l
  induction l with
  | nil => intro acc h; exact h
  | cons x xs ih =>
      intro acc h
      exact ih (insDesc key x acc) (insDesc_pairwise key x h)

theorem sortDesc_length (key : α → Nat) (l : List α) :
    (sortDesc key l).length = l.length := by
  simp [sortDesc, sortDescAux_length]

theorem mem_sortDesc {key : α → Nat} {l : List α} {a : α}
    (h : a ∈ sortDesc key l) : a ∈ l := by
  rcases mem_sortDescAux key l [] a h with h2 | h2
  · cases h2
  · exact h2

theorem sortDesc_pairwise (key : α → Nat) (l : List α) :
    (sortDesc key l).Pairwise (fun a b => key b ≤ key a) :=
  sortDescAux_pairwise key l [] List.Pairwise.nil

theorem backfillArticle_id (a : Article) (h : ∃ s, a.summary = some s ∧ s ≠ "") :
    backfillArticle a = a := by
  rcases h with ⟨s, hs, hne⟩
  simp [backfillArticle, hs, hne]

theorem backfill_id (s : Snapshot)
    (h : ∀ a ∈ s.articles, ∃ str, a.summary = some str ∧ str ≠ "") :
    backfill s = s := by
  have : s.articles.map backfillArticle = s.articles := by
    calc s.articles.map backfillArticle
        = s.articles.map id := List.map_congr_left (fun a ha => backfillArticle_id a (h a ha))
      _ = s.articles := List.map_id s.articles
  simp [backfill, this]

/- ===================== Claim theorems ===================== -/

/-- C1: `classify_sentiment` is a total deterministic pure function (a Lean
function by construction): it lower-cases the input, counts the bullish and
bearish keywords contained as substrings, and returns the Bullish label
exactly when the bullish count exceeds the bearish count, the Bearish label
exactly when the bearish count exceeds the bullish count, and the Neutral
label exactly on a tie; on the three spec examples it returns Bullish,
Bearish and Neutral respectively. -/
theorem classify_sentiment_spec :
    (∀ h : String,
        classify_sentiment h = "🟢 Bullish" ∨ classify_sentiment h = "🔴 Bearish" ∨
        classify_sentiment h = "⚪ Neutral")
    ∧ (∀ h : String, bearScore h < bullScore h ↔ classify_sentiment h = "🟢 Bullish")
    ∧ (∀ h : String, bullScore h < bearScore h ↔ classify_sentiment h = "🔴 Bearish")
    ∧ (∀ h : String, bullScore h = bearScore h ↔ classify_sentiment h = "⚪ Neutral")
    ∧ classify_sentiment "prices surge and rally" = "🟢 Bullish"
    ∧ classify_sentiment "market crash and panic" = "🔴 Bearish"
    ∧ classify_sentiment "coin holds steady" = "⚪ Neutral" := by
  have hlbl : ∀ h : String,
      classify_sentiment h = "🟢 Bullish" ∨ classify_sentiment h = "🔴 Bearish" ∨
      classify_sentiment h = "⚪ Neutral" := by
    intro h
    by_cases h1 : bearScore h < bullScore h
    · exact Or.inl (by simp [classify_sentiment, h1])
    · by_cases h2 : bullScore h < bearScore h
      · exact Or.inr (Or.inl (by simp [classify_sentiment, h1, h2]))
      · exact Or.inr (Or.inr (by simp [classify_sentiment, h1, h2]))
  refine ⟨hlbl, ?_, ?_, ?_, by decide, by decide, by decide⟩
  · intro h
    constructor
    · intro h1; simp [classify_sentiment, h1]
    · intro heq
      by_contra h1
      by_cases h2 : bullScore h < bearScore h
      · rw [show classify_sentiment h = "🔴 Bearish" by simp [classify_sentiment, h1, h2]] at heq
        exact absurd heq (by decide)
      · rw [show classify_sentiment h = "⚪ Neutral" by simp [classify_sentiment, h1, h2]] at heq
        exact absurd heq (by decide)
  · intro h
    constructor
    · intro h2
      have h1 : ¬ bearScore h < bullScore h := by omega
      simp [classify_sentiment, h1, h2]
    · intro heq
      by_contra h2
      by_cases h1 : bearScore h < bullScore h
      · rw [show classify_sentiment h = "🟢 Bullish" by simp [classify_sentiment, h1]] at heq
        exact absurd heq (by decide)
      · rw [show classify_sentiment h = "⚪ Neutral" by simp [classify_sentiment, h1, h2]] at heq
        exact absurd heq (by decide)
  · intro h
    constructor
    · intro he
      have h1 : ¬ bearScore h < bullScore h := by omega
      have h2 : ¬ bullScore h < bearScore h := by omega
      simp [classify_sentiment, h1, h2]
    · intro heq
      by_contra hne
      by_cases h1 : bearScore h < bullScore h
      · rw [show classify_sentiment h = "🟢 Bullish" by simp [classify_sentiment, h1]] at heq
        exact absurd heq (by decide)
      · by_cases h2 : bullScore h < bearScore h
        · rw [show classify_sentiment h = "🔴 Bearish" by simp [classify_sentiment, h1, h2]] at heq
          exact absurd heq (by decide)
        · omega

/-- C4: `summarize_text` splits its input into sentences on terminal
punctuation (followed by spaces, per the source regex); when the input has
at most `maxS` sentences it returns the input unchanged; when it has more,
the result is exactly `maxS` sentences drawn from the input, joined (then
stripped) in score-descending order, each sentence scored by the sum of its
words' case-insensitive frequencies over the whole text; it is a pure Lean
function, hence deterministic and side-effect-free. -/
theorem summarize_text_spec :
    (∀ (t : String) (m : Nat),
        (splitSentences t.data).length ≤ m → summarize_text t m = t)
    ∧ (∀ (t : String) (m : Nat),
        m < (splitSentences t.data).length →
        ∃ l : List (List Char),
          l.length = m
          ∧ (∀ s ∈ l, s ∈ splitSentences t.data)
          ∧ l.Pairwise (fun a b => sentenceScore t b ≤ sentenceScore t a)
          ∧ summarize_text t m = String.mk (pyStrip (joinSpace l))) := by
  constructor
  · intro t m h
    simp [summarize_text, h]
  · intro t m h
    refine ⟨(sortDesc (sentenceScore t) (splitSentences t.data)).take m, ?_, ?_, ?_, ?_⟩
    · rw [List.length_take, sortDesc_length]
      omega
    · intro s hs
      exact mem_sortDesc (List.take_subset m _ hs)
    · exact (sortDesc_pairwise (sentenceScore t) (splitSentences t.data)).sublist
        (List.take_sublist m _)
    · have hnot : ¬ (splitSentences t.data).length ≤ m := by omega
      simp [summarize_text, hnot]

/-- C4 witness: a one-sentence input is returned unchanged, via
`summarize_text_spec` at a concrete input. -/
theorem summarize_text_spec_witness : summarize_text "Hello." 2 = "Hello." :=
  summarize_text_spec.1 "Hello." 2 (by decide)

/-- C2: when the acquisition (fetch or extract) stage of a refresh fails,
both refresh implementations abort without writing: the main.py variant
returns the store unchanged on any acquisition error, and the
crypto_data_service variant returns `None` and leaves the store unchanged
whenever navigation, the bounded wait, or the parse fails. -/
theorem refresh_abort_preserves_store :
    (∀ (e : Err) (limit now : Nat) (store : Option Snapshot),
        fetch_and_save_main (.error e) limit now store = store)
    ∧ (∀ (nav waitStep parseStep : Except Err Unit) (elems : List Elem)
         (limit now : Nat) (store : Option Snapshot),
        ¬ (nav = .ok () ∧ waitStep = .ok () ∧ parseStep = .ok ()) →
        (fetch_and_save_cds nav waitStep parseStep elems limit now store).result = none ∧
        (fetch_and_save_cds nav waitStep parseStep elems limit now store).store = store) := by
  constructor
  · intro e limit now store
    rfl
  · intro nav waitStep parseStep elems limit now store hfail
    match nav with
    | .error e => exact ⟨rfl, rfl⟩
    | .ok () =>
      match waitStep with
      | .error e => exact ⟨rfl, rfl⟩
      | .ok () =>
        match parseStep with
        | .error e => exact ⟨rfl, rfl⟩
        | .ok () => exact absurd ⟨rfl, rfl, rfl⟩ hfail

/-- C2 witness: a navigation failure at a concrete store, via
`refresh_abort_preserves_store`. -/
theorem refresh_abort_preserves_store_witness :
    (fetch_and_save_cds (.error Err.navError) (.ok ()) (.ok ()) [] 30 7
        (some { timestamp := 3, source := "CoinDesk", articles := [] })).result = none ∧
    (fetch_and_save_cds (.error Err.navError) (.ok ()) (.ok ()) [] 30 7
        (some { timestamp := 3, source := "CoinDesk", articles := [] })).store =
      some { timestamp := 3, source := "CoinDesk", articles := [] } :=
  refresh_abort_preserves_store.2 (.error Err.navError) (.ok ()) (.ok ()) [] 30 7
    (some { timestamp := 3, source := "CoinDesk", articles := [] }) (by simp)

/-- C3 counterexample: in the bot read path, with a prior snapshot whose
age (1000) exceeds the ttl (300) and a failing refresh, the handler does
not return the prior snapshot — it answers with the failure message and
the prior entry has been deleted by the cache check. -/
theorem botNews_stale_counterexample :
    (botNews (some ({ timestamp := 0, source := "CoinDesk", articles := [] }, 0)) 1000 300
        none).outcome = NewsOutcome.fetchFailedMessage ∧
    (botNews (some ({ timestamp := 0, source := "CoinDesk", articles := [] }, 0)) 1000 300
        none).outcome ≠
      NewsOutcome.servedFromCache { timestamp := 0, source := "CoinDesk", articles := [] } ∧
    (botNews (some ({ timestamp := 0, source := "CoinDesk", articles := [] }, 0)) 1000 300
        none).entry = none := by
  refine ⟨rfl, ?_, rfl⟩
  intro h
  cases h

/-- C3 amended: in the bot read path a fresh prior is served without any
fetch; a stale prior is deleted by the cache check and a failing fetch then
yields the failure message (no exception) instead of the stale prior; in
the API read path a prior on-disk snapshot suppresses the refresh entirely
and is returned (with summary backfill). -/
theorem news_read_path_amended :
    (∀ (s : Snapshot) (ts now ttl : Nat) (fr : Option Snapshot),
        now - ts < ttl →
        botNews (some (s, ts)) now ttl fr =
          { outcome := .servedFromCache s, entry := some (s, ts), fetchInvoked := false })
    ∧ (∀ (s : Snapshot) (ts now ttl : Nat),
        ttl ≤ now - ts →
        botNews (some (s, ts)) now ttl none =
          { outcome := .fetchFailedMessage, entry := none, fetchInvoked := true })
    ∧ (∀ (s : Snapshot) (acquire : Except Err (List Elem)) (limit now : Nat),
        get_coindesk_news (some s) acquire limit now =
          { outcome := .ok (backfill s), store := some s, fetchInvoked := false }) := by
  refine ⟨?_, ?_, ?_⟩
  · intro s ts now ttl fr h
    simp [botNews, cacheGet, h]
  · intro s ts now ttl h
    have h2 : ¬ (now - ts < ttl) := by omega
    simp [botNews, cacheGet, h2]
  · intro s acquire limit now
    rfl

/-- C3 witness: `news_read_path_amended` at the concrete stale input. -/
theorem news_read_path_amended_witness :
    botNews (some ({ timestamp := 0, source := "CoinDesk", articles := [] }, 0)) 1000 300 none =
      { outcome := .fetchFailedMessage, entry := none, fetchInvoked := true } :=
  news_read_path_amended.2.1 { timestamp := 0, source := "CoinDesk", articles := [] } 0 1000 300
    (by decide)

/-- C5 counterexample: `load_saved_data` on a corrupt file does not return
a NotFound value; the `joblib.load` exception propagates to the caller. -/
theorem load_saved_data_corrupt_counterexample :
    load_saved_data (FileState.corrupt : FileState Nat) = .error "joblib.load raised" ∧
    isOkB (load_saved_data (FileState.corrupt : FileState Nat)) = false :=
  ⟨rfl, rfl⟩

/-- C5 amended: only the streamlit loader maps both absence and corruption
to a NotFound sentinel; `load_saved_data` returns `None` on absence but
propagates the load exception on corrupt data; `load_joblib` raises an
HTTP error on absence (404) and on corruption (500) instead of returning a
sentinel. -/
theorem load_semantics_amended :
    (∀ (α : Type) (fs : FileState (List α)),
        load_coindesk_news fs = [] ∨ ∃ d, fs = .good d ∧ load_coindesk_news fs = d)
    ∧ load_coindesk_news (FileState.absent : FileState (List Nat)) = []
    ∧ load_coindesk_news (FileState.corrupt : FileState (List Nat)) = []
    ∧ (∀ (α : Type), load_saved_data (FileState.absent : FileState α) = .ok none)
    ∧ isOkB (load_saved_data (FileState.corrupt : FileState Nat)) = false
    ∧ (∀ (α : Type), isOkB (load_joblib (FileState.absent : FileState α)) = false)
    ∧ (∀ (α : Type), isOkB (load_joblib (FileState.corrupt : FileState α)) = false) := by
  refine ⟨?_, rfl, rfl, fun α => rfl, rfl, fun α => rfl, fun α => rfl⟩
  intro α fs
  match fs with
  | .absent => exact Or.inl rfl
  | .corrupt => exact Or.inl rfl
  | .good d => exact Or.inr ⟨d, rfl, rfl⟩

/-- C6 counterexample: the streamlit extractor drops an element that has a
title but no resolvable link instead of producing a sentinel record. -/
theorem streamlitExtract_drop_counterexample :
    streamlitExtract [{ text := "Some headline", href := none }] 20 = [] := rfl

/-- C6 amended: the main.py and crypto_data_service extraction loops keep
an element with a title but no resolvable link, producing a record whose
link is the sentinel string; the streamlit extraction loop instead drops
such elements (its record count only counts elements with an href). -/
theorem extract_link_sentinel_amended :
    (∀ e : Elem, e.href = none →
        (mkArticleMain e).link = "No link found" ∧ (mkArticleCds e).link = "No link found")
    ∧ (∀ (elems : List Elem) (limit : Nat),
        ((elems.take limit).map mkArticleMain).length = min limit elems.length)
    ∧ (∀ (elems : List Elem) (limit : Nat),
        ((elems.take limit).map mkArticleCds).length = min limit elems.length)
    ∧ (∀ t : String, streamlitExtract [{ text := t, href := none }] 20 = []) := by
  refine ⟨?_, ?_, ?_, fun t => rfl⟩
  · intro e h
    constructor
    · simp [mkArticleMain, resolveLink, h]
    · simp [mkArticleCds, resolveLink, h]
  · intro elems limit
    simp [List.length_take]
  · intro elems limit
    simp [List.length_take]

/-- C6 witness: `extract_link_sentinel_amended` at a concrete linkless
element. -/
theorem extract_link_sentinel_amended_witness :
    (mkArticleMain { text := "T", href := none }).link = "No link found" ∧
    (mkArticleCds { text := "T", href := none }).link = "No link found" :=
  extract_link_sentinel_amended.1 { text := "T", href := none } rfl

/-- C7 counterexample: a cached entry whose age is exactly equal to the
ttl (300 = 300) is not returned by the cache get: the entry is deleted and
`None` comes back, contradicting the claim that it is not yet stale. -/
theorem cacheGet_boundary_counterexample :
    cacheGet (some ((0 : Nat), 0)) 300 300 = (none, none) ∧
    (cacheGet (some ((0 : Nat), 0)) 300 300).fst ≠ some 0 := by
  refine ⟨rfl, ?_⟩
  intro h
  cases h

/-- C7 amended: `SimpleCache.get` treats an entry as servable exactly when
`now - timestamp < ttl`; an entry whose age is greater than or equal to the
ttl — including age exactly equal to the ttl — is deleted and `None` is
returned, so staleness is `now - captured_at ≥ ttl`, not `> ttl`. -/
theorem cacheGet_staleness_amended :
    ∀ (α : Type) (d : α) (ts now ttl : Nat),
      (now - ts < ttl → cacheGet (some (d, ts)) now ttl = (some d, some (d, ts)))
      ∧ (ttl ≤ now - ts → cacheGet (some (d, ts)) now ttl = (none, none)) := by
  intro α d ts now ttl
  constructor
  · intro h
    simp [cacheGet, h]
  · intro h
    have h2 : ¬ (now - ts < ttl) := by omega
    simp [cacheGet, h2]

/-- C7 witness: `cacheGet_staleness_amended` at concrete inputs on both
sides of the boundary. -/
theorem cacheGet_staleness_amended_witness :
    cacheGet (some ((5 : Nat), 0)) 100 300 = (some 5, some (5, 0)) ∧
    cacheGet (some ((5 : Nat), 0)) 300 300 = (none, none) :=
  ⟨(cacheGet_staleness_amended Nat 5 0 100 300).1 (by decide),
   (cacheGet_staleness_amended Nat 5 0 300 300).2 (by decide)⟩

/-- C8: with a cached snapshot present (the API read path refreshes only
when the file is missing; the bot read path only on a cache miss, and a
fresh entry is a hit), the Fetcher is never invoked and the cached
snapshot is what is returned — the API path returns it with the in-place
summary backfill of older files, which is the identity on any snapshot
whose articles all carry a non-empty summary, as every snapshot written by
this code does. -/
theorem cached_fresh_no_fetch :
    (∀ (s : Snapshot) (acquire : Except Err (List Elem)) (limit now : Nat),
        (get_coindesk_news (some s) acquire limit now).fetchInvoked = false ∧
        (get_coindesk_news (some s) acquire limit now).outcome = .ok (backfill s) ∧
        (get_coindesk_news (some s) acquire limit now).store = some s)
    ∧ (∀ s : Snapshot,
        (∀ a ∈ s.articles, ∃ str, a.summary = some str ∧ str ≠ "") → backfill s = s)
    ∧ (∀ (s : Snapshot) (ts now ttl : Nat) (fr : Option Snapshot),
        now - ts < ttl →
        (botNews (some (s, ts)) now ttl fr).fetchInvoked = false ∧
        (botNews (some (s, ts)) now ttl fr).outcome = .servedFromCache s) := by
  refine ⟨?_, ?_, ?_⟩
  · intro s acquire limit now
    exact ⟨rfl, rfl, rfl⟩
  · intro s h
    exact backfill_id s h
  · intro s ts now ttl fr h
    constructor
    · simp [botNews, cacheGet, h]
    · simp [botNews, cacheGet, h]

/-- C8 witness: `cached_fresh_no_fetch` on the bot path at a concrete
fresh entry. -/
theorem cached_fresh_no_fetch_witness :
    (botNews (some ({ timestamp := 9, source := "CoinDesk", articles := [] }, 0)) 100 300
        none).fetchInvoked = false ∧
    (botNews (some ({ timestamp := 9, source := "CoinDesk", articles := [] }, 0)) 100 300
        none).outcome =
      .servedFromCache { timestamp := 9, source := "CoinDesk", articles := [] } :=
  cached_fresh_no_fetch.2.2 { timestamp := 9, source := "CoinDesk", articles := [] } 0 100 300
    none (by decide)

/-- C9 counterexample: when navigation raises, app.py `scrape_news`
terminates with the browser session still open, and so does the streamlit
fetch (its `driver.get` runs before the `try`), refuting release on every
exit path. -/
theorem browser_leak_counterexample :
    (scrape_news (.error Err.navError) (.ok ()) []).quitCalled = false ∧
    (fetch_and_cache_streamlit (.error Err.navError) (.ok ()) (.ok ()) [] 20 none).quitCalled
      = false :=
  ⟨rfl, rfl⟩

/-- C9 amended: the crypto_data_service fetch releases the browser on every
exit path (navigation, wait and parse failures included, via its
`finally`); the streamlit fetch releases it whenever navigation succeeded,
wait or parse failures included, but leaks it when navigation raises; the
app.py scrape releases it only on fully successful runs and leaks it when
navigation or parsing raises. -/
theorem browser_release_amended :
    (∀ (nav waitStep parseStep : Except Err Unit) (elems : List Elem) (limit now : Nat)
        (store : Option Snapshot),
        (fetch_and_save_cds nav waitStep parseStep elems limit now store).quitCalled = true)
    ∧ (∀ (waitStep parseStep : Except Err Unit) (elems : List Elem) (limit : Nat)
        (store : Option (List StArticle)),
        (fetch_and_cache_streamlit (.ok ()) waitStep parseStep elems limit store).quitCalled
          = true)
    ∧ (∀ elems : List AppElem, (scrape_news (.ok ()) (.ok ()) elems).quitCalled = true)
    ∧ (∀ (waitStep parseStep : Except Err Unit) (elems : List Elem) (limit : Nat)
        (store : Option (List StArticle)) (e : Err),
        (fetch_and_cache_streamlit (.error e) waitStep parseStep elems limit store).quitCalled
          = false)
    ∧ (∀ (parseStep : Except Err Unit) (elems : List AppElem) (e : Err),
        (scrape_news (.error e) parseStep elems).quitCalled = false)
    ∧ (∀ (elems : List AppElem) (e : Err),
        (scrape_news (.ok ()) (.error e) elems).quitCalled = false) := by
  refine ⟨?_, ?_, fun elems => rfl, fun w p elems limit store e => rfl,
    fun p elems e => rfl, fun elems e => rfl⟩
  · intro nav waitStep parseStep elems limit now store
    match nav with
    | .error e => rfl
    | .ok () =>
      match waitStep with
      | .error e => rfl
      | .ok () =>
        match parseStep with
        | .error e => rfl
        | .ok () => rfl
  · intro waitStep parseStep elems limit store
    match waitStep with
    | .error e => rfl
    | .ok () =>
      match parseStep with
      | .error e => rfl
      | .ok () => rfl

/-- C10: when no news snapshot has ever been saved and the acquisition
triggered by the read path fails (the fetch swallows the error and writes
nothing), `get_coindesk_news` ends in the uncaught load failure on the
still-missing file — it does not return an empty snapshot or a NotFound
value. -/
theorem get_coindesk_news_missing_fetch_fail :
    ∀ (e : Err) (limit now : Nat),
      get_coindesk_news none (.error e) limit now =
        { outcome := .fileNotFoundError, store := none, fetchInvoked := true }
      ∧ ∀ s : Snapshot,
          (get_coindesk_news none (.error e) limit now).outcome ≠ LoadOutcome.ok s := by
  intro e limit now
  refine ⟨rfl, ?_⟩
  intro s h
  cases h
